import Mathlib

/-
Shallow embedding of the rviz_common Tool base-class contract
(src/rviz_common/include/rviz_common/tool.hpp).

The repository fragment contains only the class declaration; the member
bodies (the file tool.cpp of rviz_common, and the property-tree load/save
logic of rviz_common/properties) are not part of src/.  Members whose body
is visible in the header (the enum constants Render and Finished, and the
inline default hook onInitialize, declared as an empty body) are embedded
from the source; the remaining member bodies are modelled from the spec and
each such definition says so in its doc comment.

GUI and scene types (QIcon, QCursor, mouse and key events, the scene
manager) are consumed by the Tool as sealed resources, so they are embedded
as small concrete structures carrying an identifying payload.
-/

namespace RvizCommon

/-- Toolbar icon resource (QIcon); a sealed value identified by an id. -/
structure QIcon where
  id : Nat
  deriving DecidableEq, Repr

/-- Mouse cursor resource (QCursor): the default arrow cursor, a cursor
derived from an icon pixmap, or some other concrete cursor. -/
inductive QCursor where
  | arrow : QCursor
  | fromIcon : QIcon → QCursor
  | custom : Nat → QCursor
  deriving DecidableEq, Repr

/-- Modelled from the spec: the default cursor associated with an icon
(the icon-to-cursor helper used by Tool::setIcon lives outside this
fragment).  The spec only requires that the cursor be derived from the
icon, so the embedding keeps the derivation as an injection. -/
def makeIconCursor (i : QIcon) : QCursor := QCursor.fromIcon i

/-- Handle for the scene-graph manager (Ogre::SceneManager); non-owning. -/
structure SceneManager where
  id : Nat
  deriving DecidableEq, Repr

/-- The display context: the shared object exposing scene access; the Tool
derives its scene-graph manager reference from it. -/
structure DisplayContext where
  sceneManager : SceneManager
  deriving DecidableEq, Repr

/-- Accessor on the display context used by Tool::initialize. -/
def DisplayContext.getSceneManager (c : DisplayContext) : SceneManager :=
  c.sceneManager

/-- Mouse event payload (ViewportMouseEvent): viewport-relative position,
button and wheel state, and modifier keys. -/
structure ViewportMouseEvent where
  x : Int
  y : Int
  buttons : Nat
  modifiers : Nat
  wheelDelta : Int
  deriving DecidableEq, Repr

/-- Key event payload (QKeyEvent). -/
structure QKeyEvent where
  key : Nat
  deriving DecidableEq, Repr

/-- Render panel handle (RenderPanel). -/
structure RenderPanel where
  id : Nat
  deriving DecidableEq, Repr

/-- A typed value in the config tree: string, number or boolean. -/
inductive ConfigValue where
  | str : String → ConfigValue
  | num : Int → ConfigValue
  | boolean : Bool → ConfigValue
  deriving DecidableEq, Repr

/-- Whether two config values have the same declared type. -/
def ConfigValue.sameType : ConfigValue → ConfigValue → Bool
  | ConfigValue.str _, ConfigValue.str _ => true
  | ConfigValue.num _, ConfigValue.num _ => true
  | ConfigValue.boolean _, ConfigValue.boolean _ => true
  | _, _ => false

/-- Constructor tag of a config value, used to compare declared types. -/
def ConfigValue.typeTag : ConfigValue → Nat
  | ConfigValue.str _ => 0
  | ConfigValue.num _ => 1
  | ConfigValue.boolean _ => 2

/-- A Config node: a tree of named typed values.  The Tool contract only
reads and writes one map level (a class-id entry plus one entry per child
property), so the embedding is the association list of that level. -/
def Config : Type := List (String × ConfigValue)

/-- Lookup of a named value in a Config map level. -/
def Config.mapGetValue (config : Config) (key : String) : Option ConfigValue :=
  (List.find? (fun e => e.1 == key) config).map (fun e => e.2)

/-- A child property of the property container: a named typed value
attached by a tool variant. -/
structure ChildProperty where
  name : String
  value : ConfigValue
  deriving DecidableEq, Repr

/-- The property container (rviz_common::properties::Property): the node
of the property tree owned by a Tool, holding its child properties. -/
structure Property where
  children : List ChildProperty
  deriving DecidableEq, Repr

/-- Modelled from the spec: loading of one child property from a config
tree (Property::load of rviz_common/properties is outside this fragment).
A key that is missing, or whose value does not match the declared type of
the live property, is skipped and the existing value kept. -/
def ChildProperty.loadFrom (config : Config) (p : ChildProperty) : ChildProperty :=
  match Config.mapGetValue config p.name with
  | some v => if ConfigValue.sameType v p.value then { p with value := v } else p
  | none => p

/-- Modelled from the spec: Property::load applied to the container —
every child is loaded from the config tree independently. -/
def Property.load (pc : Property) (config : Config) : Property :=
  ⟨pc.children.map (ChildProperty.loadFrom config)⟩

/-- Modelled from the spec: Property::save applied to the container —
one entry per child property, named and typed per that property. -/
def Property.save (pc : Property) : Config :=
  pc.children.map (fun p => (p.name, p.value))

/-- Notifications emitted by a Tool for external subscribers: the closed
signal and the name-changed signal carrying the new name. -/
inductive ToolSignal where
  | closed : ToolSignal
  | nameChanged : String → ToolSignal
  deriving DecidableEq, Repr

/-- State of a Tool instance: the fields of the class declaration.
Pointer-valued fields (the borrowed scene manager and context, the owned
property container) are embedded as Option so that nullability is
representable. -/
structure Tool where
  scene_manager_ : Option SceneManager
  context_ : Option DisplayContext
  shortcut_key_ : Char
  access_all_keys_ : Bool
  icon_ : QIcon
  cursor_ : QCursor
  class_id_ : String
  property_container_ : Option Property
  name_ : String
  description_ : String
  deriving DecidableEq, Repr

/-- Modelled from the spec: the default constructor Tool() — safe to run
with no context or scene manager available yet, and it creates the
property container, empty of variant-specific properties. -/
def Tool.construct : Tool :=
  { scene_manager_ := none
    context_ := none
    shortcut_key_ := ' '
    access_all_keys_ := false
    icon_ := ⟨0⟩
    cursor_ := QCursor.arrow
    class_id_ := ""
    property_container_ := some ⟨[]⟩
    name_ := ""
    description_ := "" }

/-- Embedded from the header: the event-result flag Render (enum value 1). -/
def Tool.Render : Nat := 1

/-- Embedded from the header: the event-result flag Finished (enum value 2). -/
def Tool.Finished : Nat := 2

/-- Return the container for properties of this Tool. -/
def Tool.getPropertyContainer (t : Tool) : Option Property :=
  t.property_container_

/-- Get the shortcut key for the tool. -/
def Tool.getShortcutKey (t : Tool) : Char := t.shortcut_key_

/-- Return true if the tool needs to access all keys or false if not. -/
def Tool.accessAllKeys (t : Tool) : Bool := t.access_all_keys_

/-- Get the name of the tool. -/
def Tool.getName (t : Tool) : String := t.name_

/-- Modelled from the spec: Tool::setName — stores the name and notifies
external observers with one name-changed notification carrying the new
name; emitted notifications are returned alongside the new state. -/
def Tool.setName (t : Tool) (name : String) : Tool × List ToolSignal :=
  ({ t with name_ := name }, [ToolSignal.nameChanged name])

/-- Get the description. -/
def Tool.getDescription (t : Tool) : String := t.description_

/-- Modelled from the spec: Tool::setDescription — stores the description
and notifies external observers via the name-changed notification so a
displayed tool list stays in sync. -/
def Tool.setDescription (t : Tool) (description : String) : Tool × List ToolSignal :=
  ({ t with description_ := description }, [ToolSignal.nameChanged t.name_])

/-- Return the class identifier which was used to create this instance. -/
def Tool.getClassId (t : Tool) : String := t.class_id_

/-- Modelled from the spec: Tool::setClassId — stores the identifier. -/
def Tool.setClassId (t : Tool) (class_id : String) : Tool :=
  { t with class_id_ := class_id }

/-- Get the icon of this tool. -/
def Tool.getIcon (t : Tool) : QIcon := t.icon_

/-- Modelled from the spec: Tool::setIcon — stores the icon and also sets
the cursor to the default cursor derived from the icon. -/
def Tool.setIcon (t : Tool) (icon : QIcon) : Tool :=
  { t with icon_ := icon, cursor_ := makeIconCursor icon }

/-- Get current cursor of this tool. -/
def Tool.getCursor (t : Tool) : QCursor := t.cursor_

/-- Modelled from the spec: Tool::setCursor — stores the cursor. -/
def Tool.setCursor (t : Tool) (cursor : QCursor) : Tool :=
  { t with cursor_ := cursor }

/-- Embedded from the header: the default onInitialize hook is declared
inline with an empty body, hence the identity on the tool state. -/
def Tool.onInit (t : Tool) : Tool := t

/-- Modelled from the spec: first step of Tool::initialize — store the
display context. -/
def Tool.storeContext (t : Tool) (context : DisplayContext) : Tool :=
  { t with context_ := some context }

/-- Modelled from the spec: second step of Tool::initialize — derive the
scene-graph manager reference from the stored context and store it. -/
def Tool.deriveSceneManager (t : Tool) : Tool :=
  { t with scene_manager_ := t.context_.map DisplayContext.getSceneManager }

/-- Modelled from the spec: Tool::initialize — stores the context, derives
and stores the scene-graph manager from it, then invokes the
variant-specific onInitialize hook, in that order.  The hook is passed as
a parameter to stand for virtual dispatch; the base class uses
Tool.onInit. -/
def Tool.init (onInit : Tool → Tool) (t : Tool) (context : DisplayContext) : Tool :=
  onInit (Tool.deriveSceneManager (Tool.storeContext t context))

/-- Modelled from the spec: the default Tool::processMouseEvent returns
the Render flag unconditionally and changes no state. -/
def Tool.processMouseEvent (t : Tool) (event : ViewportMouseEvent) : Tool × Nat :=
  (t, Tool.Render)

/-- Modelled from the spec: the default Tool::processKeyEvent is a no-op
returning 0. -/
def Tool.processKeyEvent (t : Tool) (event : QKeyEvent) (panel : RenderPanel) :
    Tool × Nat :=
  (t, 0)

/-- Modelled from the spec: Tool::load — delegates to the property tree,
applying the config to the children of the property container; the class
id is not set by load itself. -/
def Tool.load (t : Tool) (config : Config) : Tool :=
  { t with
    property_container_ := t.property_container_.map (fun pc => Property.load pc config) }

/-- Modelled from the spec: Tool::save — writes a class-id string entry
and then one entry per child property of the property container. -/
def Tool.save (t : Tool) : Config :=
  ("Class", ConfigValue.str t.class_id_) ::
    (match t.property_container_ with
     | some pc => Property.save pc
     | none => [])

/-- The lifecycle entry points whose sequencing the contract constrains. -/
inductive LifecycleCall where
  | init : LifecycleCall
  | activate : LifecycleCall
  | deactivate : LifecycleCall
  | update : LifecycleCall
  | processMouseEvent : LifecycleCall
  | processKeyEvent : LifecycleCall
  deriving DecidableEq, Repr

/-- Sequencing checker over a lifecycle call trace: the flag records
whether initialize has already been called.  A second initialize, or any
other call before the first initialize, violates the contract; a complete
trace must contain the one initialize call. -/
def checkCalls : Bool → List LifecycleCall → Bool
  | inited, [] => inited
  | inited, LifecycleCall.init :: rest => !inited && checkCalls true rest
  | inited, _ :: rest => inited && checkCalls inited rest

/-- Modelled from the spec: the precondition on a complete lifecycle call
trace of one instance — initialize is called exactly once, before any call
to activate, deactivate, update, processMouseEvent or processKeyEvent. -/
def validLifecycle (calls : List LifecycleCall) : Bool :=
  checkCalls false calls

/-- The result values the event-processing contract allows: 0, Render,
Finished, or the bitwise-OR of both flags. -/
def validResultFlags (r : Nat) : Prop :=
  r = 0 ∨ r = Tool.Render ∨ r = Tool.Finished ∨ r = Tool.Render ||| Tool.Finished

/-- Sample lifecycle trace used to instantiate the sequencing contract. -/
def sampleCalls : List LifecycleCall :=
  [LifecycleCall.init, LifecycleCall.activate, LifecycleCall.update,
   LifecycleCall.processMouseEvent, LifecycleCall.deactivate]

/-- Sample display context used to instantiate the contracts. -/
def sampleContext : DisplayContext := ⟨⟨5⟩⟩

/-- Sample property container holding two variant properties. -/
def samplePC : Property :=
  ⟨[⟨"Alpha", ConfigValue.num 7⟩, ⟨"Visible", ConfigValue.boolean true⟩]⟩

/-- Sample property container of the same shape with default values. -/
def sampleFreshPC : Property :=
  ⟨[⟨"Alpha", ConfigValue.num 0⟩, ⟨"Visible", ConfigValue.boolean false⟩]⟩

/-- Sample tool carrying samplePC and a class id. -/
def sampleSaved : Tool :=
  { Tool.construct with class_id_ := "rviz/Measure", property_container_ := some samplePC }

/-- Sample freshly constructed tool of the same class as sampleSaved. -/
def sampleFresh : Tool :=
  { Tool.construct with class_id_ := "rviz/Measure", property_container_ := some sampleFreshPC }

/-- Sample config tree with one type-mismatched entry and one unknown
entry, and the Alpha key missing. -/
def sampleCorruptConfig : Config :=
  [("Visible", ConfigValue.num 3), ("Beta", ConfigValue.num 9)]

/-- A passing sequencing check implies the trace holds exactly one
initialize call when started uninitialized (and none when started
initialized). -/
theorem checkCalls_count (calls : List LifecycleCall) :
    ∀ b : Bool, checkCalls b calls = true →
      calls.count LifecycleCall.init = (if b then 0 else 1) := by
  induction calls with
  | nil =>
      intro b h
      simp only [checkCalls] at h
      simp [h]
  | cons a rest ih =>
      intro b h
      cases a <;>
        simp only [checkCalls, Bool.and_eq_true, Bool.not_eq_true'] at h <;>
        obtain ⟨hb, hr⟩ := h <;>
        subst hb <;>
        simp [List.count_cons, ih true hr]

/-- A passing sequencing check forbids any non-initialize call before the
flag is set: either the trace began initialized, or an initialize call
occurs earlier in the trace. -/
theorem checkCalls_before (pre : List LifecycleCall) :
    ∀ (b : Bool) (c : LifecycleCall) (post : List LifecycleCall),
      checkCalls b (pre ++ c :: post) = true → c ≠ LifecycleCall.init →
      b = true ∨ LifecycleCall.init ∈ pre := by
  intro b c post h hc
  cases pre with
  | nil =>
      left
      cases c <;> simp only [List.nil_append, checkCalls, Bool.and_eq_true] at h
      · exact absurd rfl hc
      all_goals exact h.1
  | cons a pre =>
      cases a <;>
        simp only [List.cons_append, checkCalls, Bool.and_eq_true, Bool.not_eq_true'] at h
      case init => right; exact List.mem_cons_self _ _
      all_goals left; exact h.1

/-- Appending a further initialize call to any trace that passes the
sequencing check makes the check fail. -/
theorem checkCalls_append_init (calls : List LifecycleCall) :
    ∀ b : Bool, checkCalls b calls = true →
      checkCalls b (calls ++ [LifecycleCall.init]) = false := by
  induction calls with
  | nil =>
      intro b h
      simp only [checkCalls] at h
      simp [checkCalls, h]
  | cons a rest ih =>
      intro b h
      cases a <;>
        simp only [checkCalls, List.cons_append, Bool.and_eq_true, Bool.not_eq_true'] at h <;>
        obtain ⟨hb, hr⟩ := h <;>
        subst hb <;>
        simp [checkCalls, ih true hr]

/-- Loading one child property never changes its name. -/
theorem loadFrom_name (config : Config) (p : ChildProperty) :
    (ChildProperty.loadFrom config p).name = p.name := by
  unfold ChildProperty.loadFrom
  cases Config.mapGetValue config p.name with
  | none => rfl
  | some v => by_cases h : ConfigValue.sameType v p.value = true <;> simp [h]

/-- Two config values have the same declared type exactly when their
constructor tags agree. -/
theorem sameType_eq_typeTag (a b : ConfigValue) :
    ConfigValue.sameType a b = true ↔ ConfigValue.typeTag a = ConfigValue.typeTag b := by
  cases a <;> cases b <;> simp [ConfigValue.sameType, ConfigValue.typeTag]

/-- Lookup in a config map level steps through one entry. -/
theorem mapGetValue_cons (key : String) (v : ConfigValue) (rest : Config) (k : String) :
    Config.mapGetValue ((key, v) :: rest) k
      = if key == k then some v else Config.mapGetValue rest k := by
  unfold Config.mapGetValue
  cases h : (key == k) <;> simp [List.find?, h]

/-- In the saved entries of a container with distinct child names, lookup
of a child name returns that child's value. -/
theorem save_lookup (l : List ChildProperty) :
    (l.map ChildProperty.name).Nodup →
    ∀ p ∈ l, Config.mapGetValue (l.map (fun q => (q.name, q.value))) p.name = some p.value := by
  induction l with
  | nil => intro _ p hp; exact absurd hp (List.not_mem_nil p)
  | cons a rest ih =>
      intro hnodup p hp
      simp only [List.map_cons, List.nodup_cons] at hnodup
      rcases List.mem_cons.mp hp with rfl | hp
      · simp [mapGetValue_cons]
      · have hne : a.name ≠ p.name := by
          intro he
          exact hnodup.1 (he ▸ List.mem_map_of_mem ChildProperty.name hp)
        rw [List.map_cons, mapGetValue_cons]
        simp only [beq_iff_eq, hne, if_false]
        exact ih hnodup.2 p hp

/-- Loading a list of fresh children from a config that maps every
original child name to its original value, where the fresh children match
the originals in names and declared types, restores the original list. -/
theorem load_map_restore (config : Config) :
    ∀ fs os : List ChildProperty,
      fs.map ChildProperty.name = os.map ChildProperty.name →
      fs.map (fun p => ConfigValue.typeTag p.value)
        = os.map (fun p => ConfigValue.typeTag p.value) →
      (∀ p ∈ os, Config.mapGetValue config p.name = some p.value) →
      fs.map (ChildProperty.loadFrom config) = os := by
  intro fs
  induction fs with
  | nil =>
      intro os hn _ _
      have hos : os = [] := by
        cases os with
        | nil => rfl
        | cons o os => simp at hn
      subst hos
      simp
  | cons f fs ih =>
      intro os hn htag hlook
      cases os with
      | nil => exact absurd hn (by simp)
      | cons o os =>
          simp only [List.map_cons, List.cons.injEq] at hn htag
          have hname : f.name = o.name := hn.1
          have htype : ConfigValue.sameType o.value f.value = true :=
            (sameType_eq_typeTag o.value f.value).mpr htag.1.symm
          have hv : Config.mapGetValue config f.name = some o.value := by
            rw [hname]; exact hlook o (List.mem_cons_self o os)
          have hhead : ChildProperty.loadFrom config f = o := by
            unfold ChildProperty.loadFrom
            rw [hv]
            simp only [htype, if_true]
            exact congrArg (fun n => ChildProperty.mk n o.value) hname
          simp only [List.map_cons, hhead, List.cons.injEq, true_and]
          exact ih os hn.2 htag.2 (fun p hp => hlook p (List.mem_cons_of_mem o hp))

/-- C1: Tool::initialize stores the context, derives and stores the
scene-graph manager reference from it, then invokes the variant-specific
onInitialize hook, in that order; the lifecycle contract requires
initialize to be called exactly once per instance, before any call to
activate, deactivate, update, processMouseEvent or processKeyEvent, and a
second call violates the precondition rather than being recoverable. -/
theorem C1_init_contract (onInit : Tool → Tool) (t : Tool)
    (context : DisplayContext) (calls : List LifecycleCall)
    (h : validLifecycle calls = true) :
    Tool.init onInit t context
        = onInit (Tool.deriveSceneManager (Tool.storeContext t context))
    ∧ (Tool.deriveSceneManager (Tool.storeContext t context)).context_ = some context
    ∧ (Tool.deriveSceneManager (Tool.storeContext t context)).scene_manager_
        = some (DisplayContext.getSceneManager context)
    ∧ calls.count LifecycleCall.init = 1
    ∧ (∀ pre c post, calls = pre ++ c :: post → c ≠ LifecycleCall.init →
        LifecycleCall.init ∈ pre)
    ∧ validLifecycle (calls ++ [LifecycleCall.init]) = false := by
  refine ⟨rfl, rfl, rfl, ?_, ?_, ?_⟩
  · have hc := checkCalls_count calls false h
    simpa using hc
  · intro pre c post hsplit hc
    rcases checkCalls_before pre false c post (hsplit ▸ h) hc with hb | hmem
    · exact absurd hb Bool.false_ne_true
    · exact hmem
  · exact checkCalls_append_init calls false h

/-- Witness for C1 at a concrete tool, context and lifecycle trace. -/
theorem C1_init_contract_witness :
    validLifecycle sampleCalls = true
    ∧ (Tool.init Tool.onInit Tool.construct sampleContext
          = Tool.onInit
              (Tool.deriveSceneManager (Tool.storeContext Tool.construct sampleContext))
      ∧ (Tool.deriveSceneManager
            (Tool.storeContext Tool.construct sampleContext)).context_ = some sampleContext
      ∧ (Tool.deriveSceneManager
            (Tool.storeContext Tool.construct sampleContext)).scene_manager_
          = some (DisplayContext.getSceneManager sampleContext)
      ∧ sampleCalls.count LifecycleCall.init = 1
      ∧ (∀ pre c post, sampleCalls = pre ++ c :: post → c ≠ LifecycleCall.init →
          LifecycleCall.init ∈ pre)
      ∧ validLifecycle (sampleCalls ++ [LifecycleCall.init]) = false) :=
  ⟨by decide, C1_init_contract Tool.onInit Tool.construct sampleContext sampleCalls (by decide)⟩

/-- C2: the event-result flags are encoded as Render = 1 and Finished = 2;
every allowed result value is a bitwise-OR combination of the two flags or
0 (exactly the values below 4), both flags can be set in one result, and
the default event handlers return allowed values. -/
theorem C2_result_flag_encoding :
    Tool.Render = 1
    ∧ Tool.Finished = 2
    ∧ Tool.Render ||| Tool.Finished = 3
    ∧ (Tool.Render ||| Tool.Finished) &&& Tool.Render ≠ 0
    ∧ (Tool.Render ||| Tool.Finished) &&& Tool.Finished ≠ 0
    ∧ validResultFlags (Tool.Render ||| Tool.Finished)
    ∧ (∀ (t : Tool) (event : ViewportMouseEvent),
        validResultFlags (Tool.processMouseEvent t event).2)
    ∧ (∀ (t : Tool) (event : QKeyEvent) (panel : RenderPanel),
        validResultFlags (Tool.processKeyEvent t event panel).2)
    ∧ (∀ r : Nat, validResultFlags r ↔ r < 4) := by
  refine ⟨rfl, rfl, by decide, by decide, by decide, ?_, ?_, ?_, ?_⟩
  · exact Or.inr (Or.inr (Or.inr rfl))
  · intro t event
    exact Or.inr (Or.inl rfl)
  · intro t event panel
    exact Or.inl rfl
  · intro r
    constructor
    · intro hv
      unfold validResultFlags at hv
      rcases hv with rfl | rfl | rfl | rfl <;> decide
    · intro hr
      interval_cases r <;> unfold validResultFlags <;> decide

/-- C3: the default (unoverridden) processMouseEvent returns exactly the
Render flag for every input mouse event, never sets the Finished flag,
and changes no tool state. -/
theorem C3_default_mouse_render :
    ∀ (t : Tool) (event : ViewportMouseEvent),
      (Tool.processMouseEvent t event).2 = Tool.Render
      ∧ (Tool.processMouseEvent t event).2 &&& Tool.Finished = 0
      ∧ (Tool.processMouseEvent t event).1 = t :=
  fun t event => ⟨rfl, (by decide : Tool.Render &&& Tool.Finished = 0), rfl⟩

/-- C4: the default (unoverridden) processKeyEvent performs no state
change and returns 0, with neither the Render nor the Finished flag set,
for every key event and render panel. -/
theorem C4_default_key_noop :
    ∀ (t : Tool) (event : QKeyEvent) (panel : RenderPanel),
      Tool.processKeyEvent t event panel = (t, 0)
      ∧ (Tool.processKeyEvent t event panel).2 &&& Tool.Render = 0
      ∧ (Tool.processKeyEvent t event panel).2 &&& Tool.Finished = 0 :=
  fun t event panel =>
    ⟨rfl, (by decide : (0 : Nat) &&& Tool.Render = 0),
      (by decide : (0 : Nat) &&& Tool.Finished = 0)⟩

/-- C5: after setIcon with icon I and no intervening setCursor, getCursor
returns the default cursor derived from I; after setIcon with I followed
by setCursor with C, getCursor returns C. -/
theorem C5_icon_cursor_default :
    ∀ (t : Tool) (i : QIcon) (c : QCursor),
      Tool.getCursor (Tool.setIcon t i) = makeIconCursor i
      ∧ Tool.getCursor (Tool.setCursor (Tool.setIcon t i) c) = c
      ∧ Tool.getIcon (Tool.setIcon t i) = i :=
  fun t i c => ⟨rfl, rfl, rfl⟩

/-- C6: the property container is created at construction, is non-null and
empty of variant-specific properties on a constructed-but-uninitialized
Tool, and is never replaced: every base operation leaves the container in
place, and load only updates child values, keeping the container present
and its child names intact. -/
theorem C6_property_container_invariant :
    Tool.construct.property_container_ = some ⟨[]⟩
    ∧ (Tool.getPropertyContainer Tool.construct).isSome = true
    ∧ (∀ (t : Tool) (name : String),
        ((Tool.setName t name).1).property_container_ = t.property_container_)
    ∧ (∀ (t : Tool) (d : String),
        ((Tool.setDescription t d).1).property_container_ = t.property_container_)
    ∧ (∀ (t : Tool) (c : String),
        (Tool.setClassId t c).property_container_ = t.property_container_)
    ∧ (∀ (t : Tool) (i : QIcon),
        (Tool.setIcon t i).property_container_ = t.property_container_)
    ∧ (∀ (t : Tool) (c : QCursor),
        (Tool.setCursor t c).property_container_ = t.property_container_)
    ∧ (∀ (t : Tool) (context : DisplayContext),
        (Tool.init Tool.onInit t context).property_container_ = t.property_container_)
    ∧ (∀ (t : Tool) (event : ViewportMouseEvent),
        ((Tool.processMouseEvent t event).1).property_container_ = t.property_container_)
    ∧ (∀ (t : Tool) (event : QKeyEvent) (panel : RenderPanel),
        ((Tool.processKeyEvent t event panel).1).property_container_
          = t.property_container_)
    ∧ (∀ (t : Tool) (config : Config),
        ((Tool.load t config).property_container_).isSome
          = (t.property_container_).isSome)
    ∧ (∀ (t : Tool) (config : Config),
        ((Tool.load t config).property_container_).map
            (fun pc => pc.children.map ChildProperty.name)
          = (t.property_container_).map (fun pc => pc.children.map ChildProperty.name)) := by
  refine ⟨rfl, rfl, fun t n => rfl, fun t d => rfl, fun t c => rfl, fun t i => rfl,
    fun t c => rfl, fun t context => rfl, fun t event => rfl, fun t event panel => rfl,
    ?_, ?_⟩
  · intro t config
    cases h : t.property_container_ <;> simp [Tool.load, h]
  · intro t config
    cases h : t.property_container_ with
    | none => simp [Tool.load, h]
    | some pc =>
        simp [Tool.load, h, Property.load, List.map_map, Function.comp_def, loadFrom_name]

/-- C7: save writes a class-id string entry plus one entry per child
property of the property container, and loading the saved config into a
freshly constructed same-class Tool whose container has the same child
names and declared types restores all child properties to the saved
values. -/
theorem C7_save_load_roundtrip (t fresh : Tool) (pc pcF : Property)
    (ht : t.property_container_ = some pc)
    (hf : fresh.property_container_ = some pcF)
    (hnames : pcF.children.map ChildProperty.name = pc.children.map ChildProperty.name)
    (htypes : pcF.children.map (fun p => ConfigValue.typeTag p.value)
        = pc.children.map (fun p => ConfigValue.typeTag p.value))
    (hnodup : (pc.children.map ChildProperty.name).Nodup)
    (hclass : "Class" ∉ pc.children.map ChildProperty.name) :
    Config.mapGetValue (Tool.save t) "Class" = some (ConfigValue.str t.class_id_)
    ∧ (Tool.save t).length = 1 + pc.children.length
    ∧ (Tool.load fresh (Tool.save t)).property_container_ = some pc := by
  have hsave : Tool.save t
      = ("Class", ConfigValue.str t.class_id_) :: Property.save pc := by
    unfold Tool.save
    rw [ht]
  refine ⟨?_, ?_, ?_⟩
  · rw [hsave, mapGetValue_cons]
    simp
  · rw [hsave]
    simp [Property.save, Nat.add_comm]
  · have hlook : ∀ p ∈ pc.children,
        Config.mapGetValue (Tool.save t) p.name = some p.value := by
      intro p hp
      have hne : ("Class" : String) ≠ p.name := by
        intro he
        exact hclass (he ▸ List.mem_map_of_mem ChildProperty.name hp)
      rw [hsave, mapGetValue_cons]
      simp only [beq_iff_eq, hne, if_false]
      exact save_lookup pc.children hnodup p hp
    have hmap : pcF.children.map (ChildProperty.loadFrom (Tool.save t)) = pc.children :=
      load_map_restore (Tool.save t) pcF.children pc.children hnames htypes hlook
    show fresh.property_container_.map (fun q => Property.load q (Tool.save t)) = some pc
    rw [hf]
    show some (Property.load pcF (Tool.save t)) = some pc
    unfold Property.load
    rw [hmap]

/-- Witness for C7 at two concrete tools of the same class with two child
properties each. -/
theorem C7_save_load_roundtrip_witness :
    sampleSaved.property_container_ = some samplePC
    ∧ sampleFresh.property_container_ = some sampleFreshPC
    ∧ sampleFreshPC.children.map ChildProperty.name
        = samplePC.children.map ChildProperty.name
    ∧ sampleFreshPC.children.map (fun p => ConfigValue.typeTag p.value)
        = samplePC.children.map (fun p => ConfigValue.typeTag p.value)
    ∧ (samplePC.children.map ChildProperty.name).Nodup
    ∧ "Class" ∉ samplePC.children.map ChildProperty.name
    ∧ (Config.mapGetValue (Tool.save sampleSaved) "Class"
          = some (ConfigValue.str sampleSaved.class_id_)
      ∧ (Tool.save sampleSaved).length = 1 + samplePC.children.length
      ∧ (Tool.load sampleFresh (Tool.save sampleSaved)).property_container_
          = some samplePC) :=
  ⟨rfl, rfl, rfl, rfl, by decide, by decide,
    C7_save_load_roundtrip sampleSaved sampleFresh samplePC sampleFreshPC rfl rfl rfl rfl
      (by decide) (by decide)⟩

/-- C8: load handles every child of the property container independently,
so one missing key or one type-mismatched entry is skipped with the
existing value kept, while every other matching entry is still restored;
a single bad entry never aborts the load of the rest. -/
theorem C8_load_soft_failure (t : Tool) (config : Config) (pc : Property)
    (ht : t.property_container_ = some pc) :
    (Tool.load t config).property_container_
        = some ⟨pc.children.map (ChildProperty.loadFrom config)⟩
    ∧ (∀ p : ChildProperty, Config.mapGetValue config p.name = none →
        ChildProperty.loadFrom config p = p)
    ∧ (∀ (p : ChildProperty) (v : ConfigValue),
        Config.mapGetValue config p.name = some v →
        ConfigValue.sameType v p.value = false →
        ChildProperty.loadFrom config p = p)
    ∧ (∀ (p : ChildProperty) (v : ConfigValue),
        Config.mapGetValue config p.name = some v →
        ConfigValue.sameType v p.value = true →
        ChildProperty.loadFrom config p = { p with value := v }) := by
  refine ⟨?_, ?_, ?_, ?_⟩
  · show t.property_container_.map (fun q => Property.load q config)
        = some ⟨pc.children.map (ChildProperty.loadFrom config)⟩
    rw [ht]
    rfl
  · intro p hp
    unfold ChildProperty.loadFrom
    rw [hp]
  · intro p v hp hty
    unfold ChildProperty.loadFrom
    rw [hp]
    simp [hty]
  · intro p v hp hty
    unfold ChildProperty.loadFrom
    rw [hp]
    simp [hty]

/-- Witness for C8 at a concrete tool and a config tree whose Visible
entry has a mismatched type and whose Alpha entry is missing. -/
theorem C8_load_soft_failure_witness :
    sampleSaved.property_container_ = some samplePC
    ∧ ((Tool.load sampleSaved sampleCorruptConfig).property_container_
          = some ⟨samplePC.children.map (ChildProperty.loadFrom sampleCorruptConfig)⟩
      ∧ (∀ p : ChildProperty, Config.mapGetValue sampleCorruptConfig p.name = none →
          ChildProperty.loadFrom sampleCorruptConfig p = p)
      ∧ (∀ (p : ChildProperty) (v : ConfigValue),
          Config.mapGetValue sampleCorruptConfig p.name = some v →
          ConfigValue.sameType v p.value = false →
          ChildProperty.loadFrom sampleCorruptConfig p = p)
      ∧ (∀ (p : ChildProperty) (v : ConfigValue),
          Config.mapGetValue sampleCorruptConfig p.name = some v →
          ConfigValue.sameType v p.value = true →
          ChildProperty.loadFrom sampleCorruptConfig p = { p with value := v })) :=
  ⟨rfl, C8_load_soft_failure sampleSaved sampleCorruptConfig samplePC rfl⟩

/-- C9: setName with any string X stores X and triggers exactly one
name-changed notification carrying X, also when X equals the
currently-set name. -/
theorem C9_setname_notification :
    ∀ (t : Tool) (X : String),
      (Tool.setName t X).2 = [ToolSignal.nameChanged X]
      ∧ (Tool.setName t X).2.length = 1
      ∧ ((Tool.setName t X).1).name_ = X
      ∧ (Tool.setName { t with name_ := X } X).2 = [ToolSignal.nameChanged X] :=
  fun t X => ⟨rfl, rfl, rfl, rfl⟩

/-- C10: the default onInitialize hook is the identity, so initialize on a
variant that does not override it changes only the stored context and
scene-manager references, leaving name, description, class id, icon,
cursor, shortcut key, key-access flag and the property container
untouched. -/
theorem C10_default_hook_frame :
    (∀ t : Tool, Tool.onInit t = t)
    ∧ (∀ (t : Tool) (context : DisplayContext),
        (Tool.init Tool.onInit t context).name_ = t.name_
        ∧ (Tool.init Tool.onInit t context).description_ = t.description_
        ∧ (Tool.init Tool.onInit t context).class_id_ = t.class_id_
        ∧ (Tool.init Tool.onInit t context).icon_ = t.icon_
        ∧ (Tool.init Tool.onInit t context).cursor_ = t.cursor_
        ∧ (Tool.init Tool.onInit t context).shortcut_key_ = t.shortcut_key_
        ∧ (Tool.init Tool.onInit t context).access_all_keys_ = t.access_all_keys_
        ∧ (Tool.init Tool.onInit t context).property_container_ = t.property_container_
        ∧ (Tool.init Tool.onInit t context).context_ = some context
        ∧ (Tool.init Tool.onInit t context).scene_manager_
            = some (DisplayContext.getSceneManager context)) :=
  ⟨fun t => rfl,
    fun t context => ⟨rfl, rfl, rfl, rfl, rfl, rfl, rfl, rfl, rfl, rfl⟩⟩

end RvizCommon
